import Mathlib

/-!
Shallow embedding of `src/backend/src/settings.rs`: the layered
configuration loader (`get_settings`), the `Environment` enumeration with
its string conversions, and the `DatabaseSettings::connect_to_db`
connection-option builder.

The Rust code reads the process environment and the filesystem; here both
are injected explicitly: the current directory as a `String`, the process
environment as an association list, and the filesystem as a function from
path to optional parsed file content.  The `config` crate's layered merge
is modelled as first-match lookup over the concatenation of the sources in
reverse precedence order (environment variables first, then the
environment-specific file, then the base file), and `try_deserialize` as a
sequence of typed field extractions in struct declaration order.
-/

/-- Log levels of `tracing::log::LevelFilter` (only `Trace` is used). -/
inductive LevelFilter where
  | off
  | error
  | warn
  | info
  | debug
  | trace
deriving DecidableEq, Repr

/-- SSL modes of `sqlx::postgres::PgSslMode`. -/
inductive PgSslMode where
  | disable
  | allow
  | prefer
  | require
  | verifyCa
  | verifyFull
deriving DecidableEq, Repr

/-- Model of `sqlx::postgres::PgConnectOptions`: the fields the module
sets.  Port is a `Nat` kept below 2^16 by deserialization. -/
structure PgConnectOptions where
  host : String
  username : String
  password : String
  port : Nat
  database : String
  ssl_mode : PgSslMode
  log_statements : LevelFilter
deriving DecidableEq, Repr

/-- `PgConnectOptions::new()` defaults (the module overwrites every field
it cares about; `log_statements` defaults to the sqlx default level). -/
def PgConnectOptions.new : PgConnectOptions :=
  { host := "localhost"
    username := "postgres"
    password := ""
    port := 5432
    database := ""
    ssl_mode := PgSslMode.prefer
    log_statements := LevelFilter.debug }

/-- `ApplicationSettings` from the source. -/
structure ApplicationSettings where
  port : Nat
  host : String
  base_url : String
  protocol : String
deriving DecidableEq, Repr

/-- `RedisSettings` from the source. -/
structure RedisSettings where
  uri : String
  pool_max_open : Nat
  pool_max_idle : Nat
  pool_timeout_seconds : Nat
  pool_expire_seconds : Nat
deriving DecidableEq, Repr

/-- `DatabaseSettings` from the source. -/
structure DatabaseSettings where
  username : String
  password : String
  port : Nat
  host : String
  database_name : String
  require_ssl : Bool
deriving DecidableEq, Repr

/-- `Settings` from the source. -/
structure Settings where
  application : ApplicationSettings
  debug : Bool
  database : DatabaseSettings
  redis : RedisSettings
deriving DecidableEq, Repr

/-- ASCII lowercasing of a string (`str::to_lowercase` on the tokens this
module compares, which are ASCII). -/
def toLowercase (s : String) : String :=
  String.mk (s.data.map Char.toLower)

/-- The `Environment` enumeration from the source. -/
inductive Environment where
  | Development
  | Production
deriving DecidableEq, Repr

/-- `Environment::as_str`. -/
def Environment.as_str : Environment → String
  | Environment.Development => "development"
  | Environment.Production => "production"

/-- `TryFrom<String> for Environment`: match on `s.to_lowercase()`;
the fall-through arm formats the (lowercased) string into the error. -/
def Environment.try_from (s : String) : Except String Environment :=
  if toLowercase s = "development" then Except.ok Environment.Development
  else if toLowercase s = "production" then Except.ok Environment.Production
  else Except.error (toLowercase s ++
    " is not a supported environment. Use either `development` or `production`.")

/-- `DatabaseSettings::connect_to_db`: pure builder of connection
options; `require_ssl` selects Require vs Prefer, then host, username,
password, port, ssl mode and database are set and statement logging is
enabled at Trace level. -/
def DatabaseSettings.connect_to_db (self : DatabaseSettings) : PgConnectOptions :=
  let ssl_mode := if self.require_ssl then PgSslMode.require else PgSslMode.prefer
  let options :=
    { PgConnectOptions.new with
        host := self.host
        username := self.username
        password := self.password
        port := self.port
        ssl_mode := ssl_mode
        database := self.database_name }
  { options with log_statements := LevelFilter.trace }

/-- A configuration value as held by the `config` crate after parsing a
YAML file or reading an environment variable (environment variables
always arrive as strings). -/
inductive CfgValue where
  | str (s : String)
  | nat (n : Nat)
  | bool (b : Bool)
deriving DecidableEq, Repr

/-- A dotted key path, e.g. `application.port` as `["application","port"]`. -/
abbrev CfgPath := List String

/-- A parsed configuration source: a partial map from key path to value.
First match wins on lookup, so higher-precedence sources go first. -/
abbrev KVMap := List (CfgPath × CfgValue)

/-- Lookup in a source map; the first entry for the path wins. -/
def kvLookup (m : KVMap) (p : CfgPath) : Option CfgValue :=
  match m with
  | [] => none
  | e :: rest => if e.1 = p then some e.2 else kvLookup rest p

/-- Injected process environment: an association list of variable name to
value. -/
abbrev EnvVars := List (String × String)

/-- Lookup of an environment variable (`std::env::var`). -/
def envLookup (vars : EnvVars) (k : String) : Option String :=
  match vars with
  | [] => none
  | e :: rest => if e.1 = k then some e.2 else envLookup rest k

/-- Does an environment-variable name start with the prefix `APP` plus
the prefix separator `_`? -/
def startsWithAPP (name : String) : Bool :=
  match name.data with
  | 'A' :: 'P' :: 'P' :: '_' :: _ => true
  | _ => false

/-- Split a character list on the nested-field separator `__`
(the behaviour of `String.splitOn "__"`). -/
def splitDoubleUnderscore : List Char → List Char → List (List Char)
  | [], acc => [acc.reverse]
  | '_' :: '_' :: rest, acc => acc.reverse :: splitDoubleUnderscore rest []
  | c :: rest, acc => splitDoubleUnderscore rest (c :: acc)

/-- The key path addressed by an `APP_`-prefixed variable name: the part
after `APP_`, split on `__`, lowercased. -/
def envKeyPath (name : String) : CfgPath :=
  (splitDoubleUnderscore (name.data.drop 4) []).map
    (fun cs => toLowercase (String.mk cs))

/-- The `config::Environment::with_prefix("APP").prefix_separator("_").separator("__")`
source: each variable whose name starts with `APP_` contributes its
remainder, split on `__` and lowercased, as a key path with its (string)
value. -/
def envSource (vars : EnvVars) : KVMap :=
  vars.filterMap (fun kv =>
    if startsWithAPP kv.1 then
      some (envKeyPath kv.1, CfgValue.str kv.2)
    else none)

/-- Fallible decimal parse of a character list (the coercion the
`config` crate applies to numeric environment-variable strings). -/
def charsToNat? (l : List Char) : Option Nat :=
  match l with
  | [] => none
  | _ =>
    l.foldl
      (fun acc c =>
        match acc with
        | none => none
        | some n => if c.isDigit then some (n * 10 + (c.toNat - 48)) else none)
      (some 0)

/-- Fallible decimal parse of a string. -/
def strToNat? (s : String) : Option Nat :=
  charsToNat? s.data

/-- Dotted rendering of a key path, used in error messages. -/
def pathString (p : CfgPath) : String :=
  match p with
  | [] => ""
  | [x] => x
  | x :: rest => x ++ "." ++ pathString rest

/-- The missing-required-field error produced by deserialization. -/
def missingFieldMsg (p : CfgPath) : String :=
  "missing field `" ++ pathString p ++ "`"

/-- Extract a `u16` field: YAML integers are taken directly, environment
variable strings are coerced; out-of-range or non-numeric values are type
errors, a missing path is a missing-field error. -/
def getU16 (m : KVMap) (p : CfgPath) : Except String Nat :=
  match kvLookup m p with
  | none => Except.error (missingFieldMsg p)
  | some (CfgValue.nat n) =>
      if n < 65536 then Except.ok n
      else Except.error ("invalid value for `" ++ pathString p ++ "`")
  | some (CfgValue.str s) =>
      match strToNat? s with
      | some n =>
          if n < 65536 then Except.ok n
          else Except.error ("invalid value for `" ++ pathString p ++ "`")
      | none => Except.error ("invalid type for `" ++ pathString p ++ "`")
  | some (CfgValue.bool _) => Except.error ("invalid type for `" ++ pathString p ++ "`")

/-- Extract a `u64` field, with the same coercions as `getU16`. -/
def getU64 (m : KVMap) (p : CfgPath) : Except String Nat :=
  match kvLookup m p with
  | none => Except.error (missingFieldMsg p)
  | some (CfgValue.nat n) =>
      if n < 18446744073709551616 then Except.ok n
      else Except.error ("invalid value for `" ++ pathString p ++ "`")
  | some (CfgValue.str s) =>
      match strToNat? s with
      | some n =>
          if n < 18446744073709551616 then Except.ok n
          else Except.error ("invalid value for `" ++ pathString p ++ "`")
      | none => Except.error ("invalid type for `" ++ pathString p ++ "`")
  | some (CfgValue.bool _) => Except.error ("invalid type for `" ++ pathString p ++ "`")

/-- Extract a string field; scalar values are coerced to their string
rendering as the `config` crate does. -/
def getStr (m : KVMap) (p : CfgPath) : Except String String :=
  match kvLookup m p with
  | none => Except.error (missingFieldMsg p)
  | some (CfgValue.str s) => Except.ok s
  | some (CfgValue.nat n) => Except.ok (toString n)
  | some (CfgValue.bool b) => Except.ok (if b then "true" else "false")

/-- Extract a boolean field; environment-variable strings `true`/`false`
are coerced. -/
def getBool (m : KVMap) (p : CfgPath) : Except String Bool :=
  match kvLookup m p with
  | none => Except.error (missingFieldMsg p)
  | some (CfgValue.bool b) => Except.ok b
  | some (CfgValue.str s) =>
      if s = "true" then Except.ok true
      else if s = "false" then Except.ok false
      else Except.error ("invalid type for `" ++ pathString p ++ "`")
  | some (CfgValue.nat _) => Except.error ("invalid type for `" ++ pathString p ++ "`")

/-- `Config::try_deserialize::<Settings>()`: every field is required;
fields are extracted in struct declaration order and the first missing or
ill-typed field aborts with its error. -/
def tryDeserialize (m : KVMap) : Except String Settings := do
  let app_port ← getU16 m ["application", "port"]
  let app_host ← getStr m ["application", "host"]
  let app_base_url ← getStr m ["application", "base_url"]
  let app_protocol ← getStr m ["application", "protocol"]
  let debug ← getBool m ["debug"]
  let db_username ← getStr m ["database", "username"]
  let db_password ← getStr m ["database", "password"]
  let db_port ← getU16 m ["database", "port"]
  let db_host ← getStr m ["database", "host"]
  let db_database_name ← getStr m ["database", "database_name"]
  let db_require_ssl ← getBool m ["database", "require_ssl"]
  let redis_uri ← getStr m ["redis", "uri"]
  let redis_pool_max_open ← getU64 m ["redis", "pool_max_open"]
  let redis_pool_max_idle ← getU64 m ["redis", "pool_max_idle"]
  let redis_pool_timeout_seconds ← getU64 m ["redis", "pool_timeout_seconds"]
  let redis_pool_expire_seconds ← getU64 m ["redis", "pool_expire_seconds"]
  Except.ok
    { application :=
        { port := app_port
          host := app_host
          base_url := app_base_url
          protocol := app_protocol }
      debug := debug
      database :=
        { username := db_username
          password := db_password
          port := db_port
          host := db_host
          database_name := db_database_name
          require_ssl := db_require_ssl }
      redis :=
        { uri := redis_uri
          pool_max_open := redis_pool_max_open
          pool_max_idle := redis_pool_max_idle
          pool_timeout_seconds := redis_pool_timeout_seconds
          pool_expire_seconds := redis_pool_expire_seconds } }

/-- All required key paths of `Settings`, in deserialization order. -/
def requiredPaths : List CfgPath :=
  [ ["application", "port"]
  , ["application", "host"]
  , ["application", "base_url"]
  , ["application", "protocol"]
  , ["debug"]
  , ["database", "username"]
  , ["database", "password"]
  , ["database", "port"]
  , ["database", "host"]
  , ["database", "database_name"]
  , ["database", "require_ssl"]
  , ["redis", "uri"]
  , ["redis", "pool_max_open"]
  , ["redis", "pool_max_idle"]
  , ["redis", "pool_timeout_seconds"]
  , ["redis", "pool_expire_seconds"] ]

/-- Errors out of `get_settings`: either a Rust panic (`expect`) or the
`config::ConfigError` carried in the `Result`. -/
inductive GsError where
  | envPanic (msg : String)
  | configError (msg : String)
deriving DecidableEq, Repr

/-- `PathBuf::join`, for the paths the loader builds. -/
def joinPath (a b : String) : String :=
  a ++ "/" ++ b

/-- Environment detection inside `get_settings`: read `APP_ENVIRONMENT`,
default to `"development"` when unset, then `try_into()`. -/
def detectEnvironment (vars : EnvVars) : Except String Environment :=
  Environment.try_from ((envLookup vars "APP_ENVIRONMENT").getD "development")

/-- `get_settings`, with the current directory, the process environment
and the filesystem injected.  A failed environment parse is a panic
(`expect`); a missing configuration file or a deserialization failure is
a `ConfigError` in the returned `Result`.  Source precedence: base file,
then environment-specific file, then environment variables (modelled by
first-match lookup over the reverse concatenation). -/
def get_settings (cwd : String) (vars : EnvVars) (files : String → Option KVMap) :
    Except GsError Settings :=
  let settings_directory := joinPath cwd "settings"
  match detectEnvironment vars with
  | Except.error _ => Except.error (GsError.envPanic "Failed to parse APP_ENVIRONMENT.")
  | Except.ok environment =>
    let environment_filename := environment.as_str ++ ".yaml"
    match files (joinPath settings_directory "base.yaml"),
          files (joinPath settings_directory environment_filename) with
    | some base_cfg, some env_cfg =>
        (tryDeserialize (envSource vars ++ env_cfg ++ base_cfg)).mapError GsError.configError
    | _, _ => Except.error (GsError.configError "configuration file not found")

deriving instance DecidableEq for Except

/-- A complete base configuration file: every required field present. -/
def exampleBase : KVMap :=
  [ (["application", "port"], CfgValue.nat 8000)
  , (["application", "host"], CfgValue.str "127.0.0.1")
  , (["application", "base_url"], CfgValue.str "http://127.0.0.1")
  , (["application", "protocol"], CfgValue.str "http")
  , (["debug"], CfgValue.bool true)
  , (["database", "username"], CfgValue.str "postgres")
  , (["database", "password"], CfgValue.str "password")
  , (["database", "port"], CfgValue.nat 5432)
  , (["database", "host"], CfgValue.str "localhost")
  , (["database", "database_name"], CfgValue.str "authdb")
  , (["database", "require_ssl"], CfgValue.bool false)
  , (["redis", "uri"], CfgValue.str "redis://127.0.0.1")
  , (["redis", "pool_max_open"], CfgValue.nat 16)
  , (["redis", "pool_max_idle"], CfgValue.nat 8)
  , (["redis", "pool_timeout_seconds"], CfgValue.nat 1)
  , (["redis", "pool_expire_seconds"], CfgValue.nat 60) ]

/-- An environment-specific file overriding only `application.port`. -/
def exampleDevFile : KVMap :=
  [ (["application", "port"], CfgValue.nat 9000) ]

/-- A filesystem holding `settings/base.yaml` and
`settings/development.yaml` under the working directory `.`. -/
def exampleFiles : String → Option KVMap := fun path =>
  if path = "./settings/base.yaml" then some exampleBase
  else if path = "./settings/development.yaml" then some exampleDevFile
  else none

/-- A filesystem like `exampleFiles` but whose base file lacks the path
`p` and whose environment file is empty, so `p` is absent from every
source. -/
def exampleFilesMissing (p : CfgPath) : String → Option KVMap := fun path =>
  if path = "./settings/base.yaml" then
    some (exampleBase.filter (fun e => e.1 != p))
  else if path = "./settings/development.yaml" then some ([] : KVMap)
  else none

/-- The settings value `exampleFiles` resolves to with an empty process
environment. -/
def exampleSettings : Settings :=
  { application :=
      { port := 9000
        host := "127.0.0.1"
        base_url := "http://127.0.0.1"
        protocol := "http" }
    debug := true
    database :=
      { username := "postgres"
        password := "password"
        port := 5432
        host := "localhost"
        database_name := "authdb"
        require_ssl := false }
    redis :=
      { uri := "redis://127.0.0.1"
        pool_max_open := 16
        pool_max_idle := 8
        pool_timeout_seconds := 1
        pool_expire_seconds := 60 } }

/-- Field-by-field equality of two `Settings` values. -/
def Settings.fieldsEq (a b : Settings) : Prop :=
  a.application.port = b.application.port ∧
  a.application.host = b.application.host ∧
  a.application.base_url = b.application.base_url ∧
  a.application.protocol = b.application.protocol ∧
  a.debug = b.debug ∧
  a.database.username = b.database.username ∧
  a.database.password = b.database.password ∧
  a.database.port = b.database.port ∧
  a.database.host = b.database.host ∧
  a.database.database_name = b.database.database_name ∧
  a.database.require_ssl = b.database.require_ssl ∧
  a.redis.uri = b.redis.uri ∧
  a.redis.pool_max_open = b.redis.pool_max_open ∧
  a.redis.pool_max_idle = b.redis.pool_max_idle ∧
  a.redis.pool_timeout_seconds = b.redis.pool_timeout_seconds ∧
  a.redis.pool_expire_seconds = b.redis.pool_expire_seconds

/-- Successful bind over `Except` decomposes into two successes. -/
theorem except_bind_ok {ε α β : Type} {x : Except ε α} {f : α → Except ε β} {b : β}
    (h : x >>= f = Except.ok b) : ∃ a, x = Except.ok a ∧ f a = Except.ok b := by
  cases x with
  | error e => simp [Bind.bind, Except.bind] at h
  | ok a => exact ⟨a, rfl, by simpa [Bind.bind, Except.bind] using h⟩

/-- A successful `getU16` means the path is present. -/
theorem getU16_ok_isSome {m : KVMap} {p : CfgPath} {v : Nat}
    (h : getU16 m p = Except.ok v) : (kvLookup m p).isSome := by
  unfold getU16 at h
  cases hx : kvLookup m p <;> rw [hx] at h
  · exact absurd h (by simp)
  · simp

/-- A successful `getU64` means the path is present. -/
theorem getU64_ok_isSome {m : KVMap} {p : CfgPath} {v : Nat}
    (h : getU64 m p = Except.ok v) : (kvLookup m p).isSome := by
  unfold getU64 at h
  cases hx : kvLookup m p <;> rw [hx] at h
  · exact absurd h (by simp)
  · simp

/-- A successful `getStr` means the path is present. -/
theorem getStr_ok_isSome {m : KVMap} {p : CfgPath} {v : String}
    (h : getStr m p = Except.ok v) : (kvLookup m p).isSome := by
  unfold getStr at h
  cases hx : kvLookup m p <;> rw [hx] at h
  · exact absurd h (by simp)
  · simp

/-- A successful `getBool` means the path is present. -/
theorem getBool_ok_isSome {m : KVMap} {p : CfgPath} {v : Bool}
    (h : getBool m p = Except.ok v) : (kvLookup m p).isSome := by
  unfold getBool at h
  cases hx : kvLookup m p <;> rw [hx] at h
  · exact absurd h (by simp)
  · simp

/-- Lookup skips over a source that does not bind the path. -/
theorem kvLookup_append_none {a : KVMap} {p : CfgPath} (b : KVMap)
    (h : kvLookup a p = none) : kvLookup (a ++ b) p = kvLookup b p := by
  induction a with
  | nil => rfl
  | cons e rest ih =>
    have hcond : ¬ (e.1 = p) := by
      intro hc
      unfold kvLookup at h
      rw [if_pos hc] at h
      exact absurd h (by simp)
    have h' : kvLookup rest p = none := by
      unfold kvLookup at h
      rwa [if_neg hcond] at h
    calc kvLookup ((e :: rest) ++ b) p
        = kvLookup (rest ++ b) p := by
          rw [List.cons_append]
          show (if e.1 = p then some e.2 else kvLookup (rest ++ b) p) = _
          rw [if_neg hcond]
      _ = kvLookup b p := ih h'

/-- Deserialization succeeds only when every required path is present in
the merged map. -/
theorem tryDeserialize_ok_present {m : KVMap} {s : Settings}
    (h : tryDeserialize m = Except.ok s) :
    ∀ p ∈ requiredPaths, (kvLookup m p).isSome := by
  unfold tryDeserialize at h
  obtain ⟨v1, h1, h⟩ := except_bind_ok h
  obtain ⟨v2, h2, h⟩ := except_bind_ok h
  obtain ⟨v3, h3, h⟩ := except_bind_ok h
  obtain ⟨v4, h4, h⟩ := except_bind_ok h
  obtain ⟨v5, h5, h⟩ := except_bind_ok h
  obtain ⟨v6, h6, h⟩ := except_bind_ok h
  obtain ⟨v7, h7, h⟩ := except_bind_ok h
  obtain ⟨v8, h8, h⟩ := except_bind_ok h
  obtain ⟨v9, h9, h⟩ := except_bind_ok h
  obtain ⟨v10, h10, h⟩ := except_bind_ok h
  obtain ⟨v11, h11, h⟩ := except_bind_ok h
  obtain ⟨v12, h12, h⟩ := except_bind_ok h
  obtain ⟨v13, h13, h⟩ := except_bind_ok h
  obtain ⟨v14, h14, h⟩ := except_bind_ok h
  obtain ⟨v15, h15, h⟩ := except_bind_ok h
  intro p hp
  fin_cases hp
  · exact getU16_ok_isSome h1
  · exact getStr_ok_isSome h2
  · exact getStr_ok_isSome h3
  · exact getStr_ok_isSome h4
  · exact getBool_ok_isSome h5
  · exact getStr_ok_isSome h6
  · exact getStr_ok_isSome h7
  · exact getU16_ok_isSome h8
  · exact getStr_ok_isSome h9
  · exact getStr_ok_isSome h10
  · exact getBool_ok_isSome h11
  · exact getStr_ok_isSome h12
  · exact getU64_ok_isSome h13
  · exact getU64_ok_isSome h14
  · exact getU64_ok_isSome h15
  · exact getU64_ok_isSome (except_bind_ok h).choose_spec.1

/-- C1: later sources override earlier ones in the fixed order base file,
environment-specific file, environment variables: with the base file
alone setting `application.port = 8000` the resolved port is 8000; adding
an environment file setting it to 9000 resolves to 9000; additionally
setting `APP_APPLICATION__PORT=5001` resolves to 5001. -/
theorem get_settings_layered_precedence :
    (get_settings "." [] (exampleFilesMissing [])).map (fun s => s.application.port) =
      Except.ok 8000 ∧
    (get_settings "." [] exampleFiles).map (fun s => s.application.port) =
      Except.ok 9000 ∧
    (get_settings "." [("APP_APPLICATION__PORT", "5001")] exampleFiles).map
      (fun s => s.application.port) = Except.ok 5001 := by
  decide

/-- C2: `connect_to_db` maps `require_ssl = true` to the strict Require
SSL mode and `require_ssl = false` to the permissive Prefer mode, and
never yields the Disable mode. -/
theorem connect_to_db_ssl_mode (d : DatabaseSettings) :
    (d.connect_to_db).ssl_mode =
      (if d.require_ssl then PgSslMode.require else PgSslMode.prefer) ∧
    (d.connect_to_db).ssl_mode ≠ PgSslMode.disable := by
  cases hd : d.require_ssl <;>
    simp [DatabaseSettings.connect_to_db, hd]

/-- C6: environment-variable overrides use prefix `APP`, prefix separator
`_` and nested-field separator `__`: `APP_APPLICATION__PORT=5001` is
addressed to `application.port` and resolves the port to 5001, while the
single-underscore form `APP_APPLICATION_PORT` is addressed to the
unrelated key `application_port`, leaves `application.port` unbound and
does not override the port. -/
theorem env_override_double_underscore :
    envKeyPath "APP_APPLICATION__PORT" = ["application", "port"] ∧
    (get_settings "." [("APP_APPLICATION__PORT", "5001")] exampleFiles).map
      (fun s => s.application.port) = Except.ok 5001 ∧
    envKeyPath "APP_APPLICATION_PORT" = ["application_port"] ∧
    kvLookup (envSource [("APP_APPLICATION_PORT", "5001")]) ["application", "port"] = none ∧
    (get_settings "." [("APP_APPLICATION_PORT", "5001")] exampleFiles).map
      (fun s => s.application.port) = Except.ok 9000 := by
  decide

/-- C7: `connect_to_db` copies host, username, password, port and
database name from the `DatabaseSettings` fields, and its only other
effect on the returned options value is enabling statement logging at the
Trace level. -/
theorem connect_to_db_fields (d : DatabaseSettings) :
    (d.connect_to_db).host = d.host ∧
    (d.connect_to_db).username = d.username ∧
    (d.connect_to_db).password = d.password ∧
    (d.connect_to_db).port = d.port ∧
    (d.connect_to_db).database = d.database_name ∧
    (d.connect_to_db).log_statements = LevelFilter.trace :=
  ⟨rfl, rfl, rfl, rfl, rfl, rfl⟩

/-- C10: each `Environment` variant renders via `as_str` to one of
`"development"`/`"production"`, and parsing that string back with
`try_from` returns the same variant. -/
theorem environment_as_str_roundtrip (e : Environment) :
    (Environment.as_str e = "development" ∨ Environment.as_str e = "production") ∧
    Environment.try_from (Environment.as_str e) = Except.ok e := by
  cases e
  · exact ⟨Or.inl rfl, by decide⟩
  · exact ⟨Or.inr rfl, by decide⟩

/-- Is the first character list a prefix of the second? -/
def leadsWith : List Char → List Char → Bool
  | [], _ => true
  | _ :: _, [] => false
  | a :: as, b :: bs => a == b && leadsWith as bs

/-- Does the haystack contain the needle as a contiguous subsequence? -/
def containsSeq (needle : List Char) (hay : List Char) : Bool :=
  match hay with
  | [] => needle == []
  | _ :: rest => leadsWith needle hay || containsSeq needle rest

/-- Does the string `hay` contain the string `needle`? -/
def strContains (hay needle : String) : Bool :=
  containsSeq needle.data hay.data

/-- A prefix check succeeds on any extension of the needle. -/
theorem leadsWith_append (l m : List Char) : leadsWith l (l ++ m) = true := by
  induction l with
  | nil => rfl
  | cons a as ih => simp [leadsWith, ih]

/-- Containment holds when the needle is a prefix of the haystack. -/
theorem containsSeq_of_leadsWith {l hay : List Char}
    (h : leadsWith l hay = true) : containsSeq l hay = true := by
  cases hay with
  | nil =>
    cases l with
    | nil => rfl
    | cons a as => simp [leadsWith] at h
  | cons b bs => simp [containsSeq, h]

/-- Containment is stable under prepending to the haystack. -/
theorem containsSeq_append_right (n l m : List Char)
    (h : containsSeq n m = true) : containsSeq n (l ++ m) = true := by
  induction l with
  | nil => exact h
  | cons c cs ih => simp [containsSeq, ih]

/-- Any string contains each of its two concatenands: the left one. -/
theorem strContains_append_left (x y : String) : strContains (x ++ y) x = true := by
  unfold strContains
  rw [String.data_append]
  exact containsSeq_of_leadsWith (leadsWith_append x.data y.data)

/-- Any string contains what its right concatenand contains. -/
theorem strContains_append_right (x y n : String)
    (h : strContains y n = true) : strContains (x ++ y) n = true := by
  unfold strContains at h ⊢
  rw [String.data_append]
  exact containsSeq_append_right n.data x.data y.data h

/-- C3 counterexample: for the input `"STAGING"`, `try_from` fails but
the error message does not carry the offending string itself, only its
lowercased form. -/
theorem try_from_error_case_counterexample :
    Environment.try_from "STAGING" =
      Except.error
        "staging is not a supported environment. Use either `development` or `production`." ∧
    strContains
      "staging is not a supported environment. Use either `development` or `production`."
      "STAGING" = false ∧
    strContains
      "staging is not a supported environment. Use either `development` or `production`."
      "staging" = true := by
  decide

/-- C3 (amended): parsing succeeds exactly on case-insensitive variants
of `"development"`/`"production"`, returning the matching variant; every
other string fails with an error carrying the lowercased offending
string and naming the two valid options. -/
theorem try_from_case_insensitive (s : String) :
    (toLowercase s = "development" →
      Environment.try_from s = Except.ok Environment.Development) ∧
    (toLowercase s = "production" →
      Environment.try_from s = Except.ok Environment.Production) ∧
    (toLowercase s ≠ "development" → toLowercase s ≠ "production" →
      Environment.try_from s =
        Except.error (toLowercase s ++
          " is not a supported environment. Use either `development` or `production`.") ∧
      strContains (toLowercase s ++
          " is not a supported environment. Use either `development` or `production`.")
        (toLowercase s) = true ∧
      strContains (toLowercase s ++
          " is not a supported environment. Use either `development` or `production`.")
        "development" = true ∧
      strContains (toLowercase s ++
          " is not a supported environment. Use either `development` or `production`.")
        "production" = true) := by
  refine ⟨fun h => ?_, fun h => ?_, fun h1 h2 => ?_⟩
  · simp only [Environment.try_from, h]
    decide
  · simp only [Environment.try_from, h]
    decide
  · refine ⟨?_, ?_, ?_, ?_⟩
    · simp only [Environment.try_from]
      rw [if_neg h1, if_neg h2]
    · exact strContains_append_left (toLowercase s)
        " is not a supported environment. Use either `development` or `production`."
    · exact strContains_append_right (toLowercase s)
        " is not a supported environment. Use either `development` or `production`."
        "development" (by decide)
    · exact strContains_append_right (toLowercase s)
        " is not a supported environment. Use either `development` or `production`."
        "production" (by decide)

/-- Witness for C3 at concrete inputs. -/
theorem try_from_case_insensitive_witness :
    Environment.try_from "DEVELOPMENT" = Except.ok Environment.Development ∧
    Environment.try_from "Production" = Except.ok Environment.Production ∧
    Environment.try_from "staging" =
      Except.error (toLowercase "staging" ++
        " is not a supported environment. Use either `development` or `production`.") :=
  ⟨(try_from_case_insensitive "DEVELOPMENT").1 (by decide),
   (try_from_case_insensitive "Production").2.1 (by decide),
   ((try_from_case_insensitive "staging").2.2 (by decide) (by decide)).1⟩

/-- C4: with `APP_ENVIRONMENT` unset, environment detection defaults to
Development, and `get_settings` consults the filesystem only at
`<cwd>/settings/base.yaml` and `<cwd>/settings/development.yaml`: any two
filesystems agreeing on those two paths yield the same result. -/
theorem default_environment_development (cwd : String) (vars : EnvVars)
    (f g : String → Option KVMap)
    (h : envLookup vars "APP_ENVIRONMENT" = none)
    (hb : f (joinPath (joinPath cwd "settings") "base.yaml") =
          g (joinPath (joinPath cwd "settings") "base.yaml"))
    (hd : f (joinPath (joinPath cwd "settings") "development.yaml") =
          g (joinPath (joinPath cwd "settings") "development.yaml")) :
    detectEnvironment vars = Except.ok Environment.Development ∧
    get_settings cwd vars f = get_settings cwd vars g := by
  have hdet : detectEnvironment vars = Except.ok Environment.Development := by
    unfold detectEnvironment
    rw [h]
    decide
  refine ⟨hdet, ?_⟩
  have e : ("development" ++ ".yaml" : String) = "development.yaml" := by decide
  simp only [get_settings, hdet, Environment.as_str, e]
  rw [hb, hd]

/-- Witness for C4 at concrete inputs: two filesystems differing outside
the two consulted paths resolve identically. -/
theorem default_environment_development_witness :
    detectEnvironment [("OTHER_VAR", "x")] = Except.ok Environment.Development ∧
    get_settings "." [("OTHER_VAR", "x")] exampleFiles =
      get_settings "." [("OTHER_VAR", "x")]
        (fun path => if path = "unrelated.yaml" then some [] else exampleFiles path) :=
  default_environment_development "." [("OTHER_VAR", "x")] exampleFiles
    (fun path => if path = "unrelated.yaml" then some [] else exampleFiles path)
    (by decide) (by decide) (by decide)

/-- C5: each required field, when removed from every source, makes
`get_settings` fail with an error naming that field's path (shown on a
complete configuration minus that field); and in general a merged
configuration missing any required path never deserializes to a
`Settings` value at all. -/
theorem missing_required_field_no_settings :
    (∀ p ∈ requiredPaths,
       get_settings "." [] (exampleFilesMissing p) =
         Except.error (GsError.configError (missingFieldMsg p))) ∧
    (∀ (vars : EnvVars) (base env : KVMap) (p : CfgPath) (s : Settings),
       p ∈ requiredPaths →
       kvLookup base p = none → kvLookup env p = none →
       kvLookup (envSource vars) p = none →
       tryDeserialize (envSource vars ++ env ++ base) ≠ Except.ok s) := by
  constructor
  · decide
  · intro vars base env p s hp hb he hv hok
    have hpres := tryDeserialize_ok_present hok p hp
    have hmid : kvLookup (envSource vars ++ env) p = none := by
      rw [kvLookup_append_none env hv]
      exact he
    rw [kvLookup_append_none base hmid, hb] at hpres
    simp at hpres

/-- Witness for C5 at a concrete input: with `database.password` removed
from every source, no `Settings` value is produced. -/
theorem missing_required_field_no_settings_witness :
    get_settings "." [] (exampleFilesMissing ["database", "password"]) =
      Except.error (GsError.configError (missingFieldMsg ["database", "password"])) ∧
    tryDeserialize
      (envSource [] ++ ([] : KVMap) ++
        exampleBase.filter (fun e => e.1 != ["database", "password"])) ≠
      Except.ok exampleSettings :=
  ⟨missing_required_field_no_settings.1 ["database", "password"] (by decide),
   missing_required_field_no_settings.2 []
     (exampleBase.filter (fun e => e.1 != ["database", "password"])) []
     ["database", "password"] exampleSettings
     (by decide) (by decide) (by decide) (by decide)⟩

/-- C8: the loader is deterministic: two runs over identical file
contents and identical environment variables that both succeed produce
field-by-field equal `Settings` values. -/
theorem get_settings_deterministic (cwd : String) (vars : EnvVars)
    (files files' : String → Option KVMap) (s1 s2 : Settings)
    (hf : ∀ p, files p = files' p)
    (h1 : get_settings cwd vars files = Except.ok s1)
    (h2 : get_settings cwd vars files' = Except.ok s2) :
    Settings.fieldsEq s1 s2 := by
  have hfe : files = files' := funext hf
  subst hfe
  rw [h1] at h2
  cases h2
  simp [Settings.fieldsEq]

/-- Witness for C8 at a concrete input. -/
theorem get_settings_deterministic_witness :
    Settings.fieldsEq exampleSettings exampleSettings :=
  get_settings_deterministic "." [] exampleFiles exampleFiles
    exampleSettings exampleSettings (fun _ => rfl) (by decide) (by decide)

/-- C9: when `APP_ENVIRONMENT` is set to a string the environment parser
rejects, `get_settings` panics with the `expect` message instead of
returning the parse failure as a `ConfigError` value. -/
theorem invalid_environment_panics (cwd : String) (vars : EnvVars)
    (files : String → Option KVMap) (v e : String)
    (h : envLookup vars "APP_ENVIRONMENT" = some v)
    (he : Environment.try_from v = Except.error e) :
    get_settings cwd vars files =
      Except.error (GsError.envPanic "Failed to parse APP_ENVIRONMENT.") ∧
    ∀ m, get_settings cwd vars files ≠ Except.error (GsError.configError m) := by
  have hdet : detectEnvironment vars = Except.error e := by
    unfold detectEnvironment
    rw [h]
    exact he
  have hmain : get_settings cwd vars files =
      Except.error (GsError.envPanic "Failed to parse APP_ENVIRONMENT.") := by
    simp only [get_settings, hdet]
  refine ⟨hmain, fun m hc => ?_⟩
  rw [hmain] at hc
  simp at hc

/-- Witness for C9 at a concrete input. -/
theorem invalid_environment_panics_witness :
    get_settings "." [("APP_ENVIRONMENT", "staging")] exampleFiles =
      Except.error (GsError.envPanic "Failed to parse APP_ENVIRONMENT.") ∧
    get_settings "." [("APP_ENVIRONMENT", "staging")] exampleFiles ≠
      Except.error (GsError.configError "") :=
  ⟨(invalid_environment_panics "." [("APP_ENVIRONMENT", "staging")] exampleFiles
      "staging"
      "staging is not a supported environment. Use either `development` or `production`."
      (by decide) (by decide)).1,
   (invalid_environment_panics "." [("APP_ENVIRONMENT", "staging")] exampleFiles
      "staging"
      "staging is not a supported environment. Use either `development` or `production`."
      (by decide) (by decide)).2 ""⟩
